import Mathlib

/-!
Verification of the socketcan frame codec, CANopen protocol layer, error
decoder and BCM periodic-transmission message of this repository.

The Rust sources are shallowly embedded: machine integers (`u8`, `u32`,
`u64`, `usize`) become `Nat` (with explicit bounds or `% 2 ^ w` where the
source can overflow), byte buffers become `List Nat`, fallible functions
return `Except`, and a function that can panic (index out of bounds,
`unwrap`) returns `Option` with `none` for the panic.
-/

deriving instance DecidableEq for Except

namespace SocketCAN

/-- if set, indicate 29 bit extended format (`EFF_FLAG` in socketcan.rs). -/
def EFF_FLAG : Nat := 0x80000000

/-- remote transmission request flag. -/
def RTR_FLAG : Nat := 0x40000000

/-- error flag. -/
def ERR_FLAG : Nat := 0x20000000

/-- valid bits in standard frame id. -/
def SFF_MASK : Nat := 0x000007ff

/-- valid bits in extended frame id. -/
def EFF_MASK : Nat := 0x1fffffff

/-- valid bits in error frame. -/
def ERR_MASK : Nat := 0x1fffffff

/-- BCM flag: set the timer of a periodic job (`BCM_SETTIMER`). -/
def BCM_SETTIMER : Nat := 0x0001

/-- BCM flag: start the timer of a periodic job (`BCM_STARTTIMER`). -/
def BCM_STARTTIMER : Nat := 0x0002

/-- BCM operation code for installing a periodic transmission (`TX_SETUP`). -/
def TX_SETUP : Nat := 1

/-- The `CANFrame` struct of socketcan.rs.  The Rust field `id` (raw 32 bit
CAN_ID plus EFF/RTR/ERR flag bits) is called `raw_id` here because the
accessor method `CANFrame::id` keeps its source name `CANFrame.id`; the
Rust field `data` (the 8-byte buffer) keeps its name. -/
structure CANFrame where
  raw_id : Nat
  data_len : Nat
  pad : Nat
  res0 : Nat
  res1 : Nat
  data : List Nat
  deriving DecidableEq, Repr

/-- The `FrameError` enum of socketcan.rs. -/
inductive FrameError where
  | TooMuchData
  | IDTooLarge
  deriving DecidableEq, Repr

/-- `CANFrame::new` from socketcan.rs: validates the payload length and the
identifier, packs the EFF/RTR/ERR flag bits into the raw id, and copies the
payload into a zero-initialised 8-byte buffer. -/
def CANFrame.new (id : Nat) (data : List Nat) (rtr : Bool) (err : Bool) :
    Except FrameError CANFrame :=
  if data.length > 8 then .error .TooMuchData
  else if id > EFF_MASK then .error .IDTooLarge
  else
    let id1 := if id > SFF_MASK then id ||| EFF_FLAG else id
    let id2 := if rtr then id1 ||| RTR_FLAG else id1
    let id3 := if err then id2 ||| ERR_FLAG else id2
    .ok { raw_id := id3
          data_len := data.length
          pad := 0
          res0 := 0
          res1 := 0
          data := data ++ List.replicate (8 - data.length) 0 }

/-- `CANFrame::is_extended`. -/
def CANFrame.is_extended (f : CANFrame) : Bool :=
  f.raw_id &&& EFF_FLAG != 0

/-- `CANFrame::is_error`. -/
def CANFrame.is_error (f : CANFrame) : Bool :=
  f.raw_id &&& ERR_FLAG != 0

/-- `CANFrame::is_rtr`. -/
def CANFrame.is_rtr (f : CANFrame) : Bool :=
  f.raw_id &&& RTR_FLAG != 0

/-- `CANFrame::id`: the actual CAN ID, without the EFF/RTR/ERR flag bits. -/
def CANFrame.id (f : CANFrame) : Nat :=
  if f.is_extended then f.raw_id &&& EFF_MASK else f.raw_id &&& SFF_MASK

/-- `CANFrame::err`. -/
def CANFrame.err (f : CANFrame) : Nat :=
  f.raw_id &&& ERR_MASK

/-- `CANFrame::data`: the payload slice `&data[..data_len]`. -/
def CANFrame.data_slice (f : CANFrame) : List Nat :=
  f.data.take f.data_len

/-- `CANFrame::raw_data`: the full 8-byte buffer. -/
def CANFrame.raw_data (f : CANFrame) : List Nat :=
  f.data

/-- `CANFrame::len`. -/
def CANFrame.len (f : CANFrame) : Nat :=
  f.data_len

/-! Embedding of err.rs: the CAN error-frame decoder. -/

/-- The `CANErrorDecodingFailure` enum of err.rs (the misspelled variant
`InvlaidViolationType` is kept as in the source). -/
inductive CANErrorDecodingFailure where
  | NotAnError
  | UnknownErrorType (code : Nat)
  | NotEnoughData (idx : Nat)
  | InvalidControllerProblem
  | InvlaidViolationType
  | InvalidLocation
  | InvalidTransceiverError
  deriving DecidableEq, Repr

/-- The `ControllerProblem` enum of err.rs. -/
inductive ControllerProblem where
  | Unspecified
  | ReceiveBufferOverflow
  | TransmitBufferOverflow
  | ReceiveErrorWarning
  | TransmitErrorWarning
  | ReceiveErrorPassive
  | TransmitErrorPassive
  | Active
  deriving DecidableEq, Repr

/-- The `ViolationType` enum of err.rs. -/
inductive ViolationType where
  | Unspecified
  | SingleBitError
  | FrameFormatError
  | BitStuffingError
  | UnableToSendDominantBit
  | UnableToSendRecessiveBit
  | BusOverload
  | Active
  | TransmissionError
  deriving DecidableEq, Repr

/-- The `Location` enum of err.rs. -/
inductive Location where
  | Unspecified
  | StartOfFrame
  | Id2821
  | Id2018
  | SubstituteRtr
  | IdentifierExtension
  | Id1713
  | Id1205
  | Id0400
  | Rtr
  | Reserved1
  | Reserved0
  | DataLengthCode
  | DataSection
  | CrcSequence
  | CrcDelimiter
  | AckSlot
  | AckDelimiter
  | EndOfFrame
  | Intermission
  deriving DecidableEq, Repr

/-- The `TransceiverError` enum of err.rs. -/
inductive TransceiverError where
  | Unspecified
  | CanHighNoWire
  | CanHighShortToBat
  | CanHighShortToVcc
  | CanHighShortToGnd
  | CanLowNoWire
  | CanLowShortToBat
  | CanLowShortToVcc
  | CanLowShortToGnd
  | CanLowShortToCanHigh
  deriving DecidableEq, Repr

/-- The `CANError` enum of err.rs. -/
inductive CANError where
  | TransmitTimeout
  | LostArbitration (n : Nat)
  | ControllerProblem (problem : ControllerProblem)
  | ProtocolViolation (vtype : ViolationType) (location : Location)
  | TransceiverError
  | NoAck
  | BusOff
  | BusError
  | Restarted
  | Unknown (code : Nat)
  deriving DecidableEq, Repr

/-- The helper `get_data` of err.rs: byte `idx` of the frame payload slice,
or `NotEnoughData` when the slice is too short. -/
def get_data (frame : CANFrame) (idx : Nat) : Except CANErrorDecodingFailure Nat :=
  match frame.data_slice[idx]? with
  | some b => .ok b
  | none => .error (.NotEnoughData idx)

/-- The `TryFrom<u8> for ControllerProblem` table of err.rs.  A Rust `match`
on integer literals is rendered as the equivalent equality chain. -/
def ControllerProblem.try_from (val : Nat) :
    Except CANErrorDecodingFailure ControllerProblem :=
  if val = 0x00 then .ok .Unspecified
  else if val = 0x01 then .ok .ReceiveBufferOverflow
  else if val = 0x02 then .ok .TransmitBufferOverflow
  else if val = 0x04 then .ok .ReceiveErrorWarning
  else if val = 0x08 then .ok .TransmitErrorWarning
  else if val = 0x10 then .ok .ReceiveErrorPassive
  else if val = 0x20 then .ok .TransmitErrorPassive
  else if val = 0x40 then .ok .Active
  else .error .InvalidControllerProblem

/-- The `TryFrom<u8> for ViolationType` table of err.rs. -/
def ViolationType.try_from (val : Nat) :
    Except CANErrorDecodingFailure ViolationType :=
  if val = 0x00 then .ok .Unspecified
  else if val = 0x01 then .ok .SingleBitError
  else if val = 0x02 then .ok .FrameFormatError
  else if val = 0x04 then .ok .BitStuffingError
  else if val = 0x08 then .ok .UnableToSendDominantBit
  else if val = 0x10 then .ok .UnableToSendRecessiveBit
  else if val = 0x20 then .ok .BusOverload
  else if val = 0x40 then .ok .Active
  else if val = 0x80 then .ok .TransmissionError
  else .error .InvlaidViolationType

/-- The `TryFrom<u8> for Location` table of err.rs. -/
def Location.try_from (val : Nat) :
    Except CANErrorDecodingFailure Location :=
  if val = 0x00 then .ok .Unspecified
  else if val = 0x03 then .ok .StartOfFrame
  else if val = 0x02 then .ok .Id2821
  else if val = 0x06 then .ok .Id2018
  else if val = 0x04 then .ok .SubstituteRtr
  else if val = 0x05 then .ok .IdentifierExtension
  else if val = 0x07 then .ok .Id1713
  else if val = 0x0F then .ok .Id1205
  else if val = 0x0E then .ok .Id0400
  else if val = 0x0C then .ok .Rtr
  else if val = 0x0D then .ok .Reserved1
  else if val = 0x09 then .ok .Reserved0
  else if val = 0x0B then .ok .DataLengthCode
  else if val = 0x0A then .ok .DataSection
  else if val = 0x08 then .ok .CrcSequence
  else if val = 0x18 then .ok .CrcDelimiter
  else if val = 0x19 then .ok .AckSlot
  else if val = 0x1B then .ok .AckDelimiter
  else if val = 0x1A then .ok .EndOfFrame
  else if val = 0x12 then .ok .Intermission
  else .error .InvalidLocation

/-- The `TryFrom<u8> for TransceiverError` table of err.rs. -/
def TransceiverError.try_from (val : Nat) :
    Except CANErrorDecodingFailure TransceiverError :=
  if val = 0x00 then .ok .Unspecified
  else if val = 0x04 then .ok .CanHighNoWire
  else if val = 0x05 then .ok .CanHighShortToBat
  else if val = 0x06 then .ok .CanHighShortToVcc
  else if val = 0x07 then .ok .CanHighShortToGnd
  else if val = 0x40 then .ok .CanLowNoWire
  else if val = 0x50 then .ok .CanLowShortToBat
  else if val = 0x60 then .ok .CanLowShortToVcc
  else if val = 0x70 then .ok .CanLowShortToGnd
  else if val = 0x80 then .ok .CanLowShortToCanHigh
  else .error .InvalidTransceiverError

/-- `CANError::from_frame` of err.rs: dispatch on the error-class bits of
the identifier, reading sub-code bytes through `get_data` where the class
has sub-structure.  The Rust `match` on `frame.err()` is rendered as the
equivalent equality chain. -/
def CANError.from_frame (frame : CANFrame) :
    Except CANErrorDecodingFailure CANError :=
  if !frame.is_error then .error .NotAnError
  else
    let e := frame.err
    if e = 0x00000001 then .ok .TransmitTimeout
    else if e = 0x00000002 then (get_data frame 0).map CANError.LostArbitration
    else if e = 0x00000004 then
      ((get_data frame 1).bind ControllerProblem.try_from).map CANError.ControllerProblem
    else if e = 0x00000008 then
      ((get_data frame 2).bind ViolationType.try_from).bind fun vtype =>
        ((get_data frame 3).bind Location.try_from).map fun location =>
          CANError.ProtocolViolation vtype location
    else if e = 0x00000010 then .ok .TransceiverError
    else if e = 0x00000020 then .ok .NoAck
    else if e = 0x00000040 then .ok .BusOff
    else if e = 0x00000080 then .ok .BusError
    else if e = 0x00000100 then .ok .Restarted
    else .error (.UnknownErrorType e)

/-! Embedding of canopen.rs: the CANopen protocol layer. -/

/-- The `PDO` channel enum of canopen.rs. -/
inductive PDO where
  | PDO1
  | PDO2
  | PDO3
  | PDO4
  deriving DecidableEq, Repr

/-- `PDO::get_from_device_id` of canopen.rs. -/
def PDO.get_from_device_id : PDO → Nat
  | .PDO1 => 0x180
  | .PDO2 => 0x280
  | .PDO3 => 0x380
  | .PDO4 => 0x480

/-- `PDO::get_to_device_id` of canopen.rs. -/
def PDO.get_to_device_id : PDO → Nat
  | .PDO1 => 0x200
  | .PDO2 => 0x300
  | .PDO3 => 0x400
  | .PDO4 => 0x500

/-- The `NMTState` enum of canopen.rs. -/
inductive NMTState where
  | Initializing
  | Stopped
  | Operational
  | PreOperational
  deriving DecidableEq, Repr

/-- The `impl From<u8> for NMTState` of canopen.rs: every byte other than
0x04, 0x05 and 0x7f decodes to `Initializing`. -/
def NMTState.fromRaw (raw : Nat) : NMTState :=
  if raw = 0x04 then .Stopped
  else if raw = 0x05 then .Operational
  else if raw = 0x7f then .PreOperational
  else .Initializing

/-- The `NMTCommand` enum of canopen.rs. -/
inductive NMTCommand where
  | GoToOperational
  | GoToStopped
  | GoToPreOperational
  | ResetNode
  | ResetCommunication
  deriving DecidableEq, Repr

/-- The `impl From<NMTCommand> for u8` of canopen.rs. -/
def NMTCommand.toByte : NMTCommand → Nat
  | .GoToOperational => 0x01
  | .GoToStopped => 0x02
  | .GoToPreOperational => 0x80
  | .ResetNode => 0x81
  | .ResetCommunication => 0x82

/-- The `SDOControlByte` struct of canopen.rs (fields only; no
conversions are implemented in the source). -/
structure SDOControlByte where
  ccs : Nat
  bytes_not_containing_data : Nat
  expedited : Bool
  data_size_in_control_byte : Bool
  deriving DecidableEq, Repr

/-- The `CANOpenNodeCommand` enum of canopen.rs.  The `[u8; 8]` payload of
`SendPDO` and the `[u8; 4]` payload of `SendSDO` are lists whose length is
constrained where it matters. -/
inductive CANOpenNodeCommand where
  | SendPDO (id : Nat) (pdo : PDO) (data : List Nat) (size : Nat)
  | SendNMT (id : Nat) (command : NMTCommand)
  | SendSDO (id : Nat) (control : SDOControlByte) (index : Nat)
      (subindex : Nat) (data : List Nat) (size : Nat)
  deriving DecidableEq, Repr

/-- The `CANOpenNodeMessage` enum of canopen.rs. -/
inductive CANOpenNodeMessage where
  | SyncReceived
  | PDOReceived (pdo : PDO) (data : List Nat) (len : Nat)
  | NMTReceived (state : NMTState)
  | SDOReceived (control : SDOControlByte) (index : Nat) (subindex : Nat)
      (data : List Nat) (len : Nat)
  deriving DecidableEq, Repr

/-- The `MessageParseError` enum of canopen.rs. -/
inductive MessageParseError where
  | InvalidID (id : Nat)
  deriving DecidableEq, Repr

/-- The `impl TryFrom<CANFrame> for CANOpenNodeMessage` of canopen.rs.
The result is wrapped in `Option`: `none` models a Rust panic, which
happens exactly when the 0x700 arm evaluates `frame.data()[0]` on an empty
payload slice (index out of bounds). -/
def CANOpenNodeMessage.tryFrom (frame : CANFrame) :
    Option (Except MessageParseError CANOpenNodeMessage) :=
  if frame.id &&& 0xf80 = 0x80 then some (.ok .SyncReceived)
  else if frame.id &&& 0xf80 = 0x180 then
    some (.ok (.PDOReceived .PDO1 frame.raw_data frame.len))
  else if frame.id &&& 0xf80 = 0x280 then
    some (.ok (.PDOReceived .PDO2 frame.raw_data frame.len))
  else if frame.id &&& 0xf80 = 0x380 then
    some (.ok (.PDOReceived .PDO3 frame.raw_data frame.len))
  else if frame.id &&& 0xf80 = 0x480 then
    some (.ok (.PDOReceived .PDO4 frame.raw_data frame.len))
  else if frame.id &&& 0xf80 = 0x700 then
    match frame.data_slice[0]? with
    | some b => some (.ok (.NMTReceived (NMTState.fromRaw b)))
    | none => none
  else some (.error (.InvalidID (frame.id &&& 0xf80)))

/-- The `impl From<CANOpenNodeCommand> for CANFrame` of canopen.rs.  The
result is wrapped in `Option`: `none` models a Rust panic, from the slice
`&data[..size]` when `size` exceeds the buffer length or from the
`.unwrap()` on `CANFrame::new` (rendered by `Except.toOption`). -/
def CANOpenNodeCommand.toFrame : CANOpenNodeCommand → Option CANFrame
  | .SendPDO id pdo data size =>
    if size ≤ data.length then
      (CANFrame.new (pdo.get_to_device_id ||| id) (data.take size) false false).toOption
    else none
  | .SendNMT id command =>
    (CANFrame.new (0x700 ||| id) [command.toByte] false false).toOption
  | .SendSDO id _ _ _ _ _ =>
    (CANFrame.new (0x580 ||| id) [] false false).toOption

/-! Embedding of bcm.rs: the BCM periodic-transmission message. -/

/-- The `BCMInterval` struct of socketcan.rs.  The two `libc::c_long`
fields are represented by their 64-bit bit patterns as `Nat`. -/
structure BCMInterval where
  tv_sec : Nat
  tv_usec : Nat
  deriving DecidableEq, Repr

/-- The `BCMMessageHeader` struct of socketcan.rs. -/
structure BCMMessageHeader where
  opcode : Nat
  flags : Nat
  count : Nat
  ival1 : BCMInterval
  ival2 : BCMInterval
  can_id : Nat
  nframes : Nat
  frames : CANFrame
  deriving DecidableEq, Repr

/-- The BCM message constructed and written by `BCMSocket::send_periodically`
in bcm.rs.  The socket write itself is I/O and out of scope; the cast
`microseconds as libc::c_long` keeps the 64-bit bit pattern, rendered as
`% 2 ^ 64`. -/
def BCMSocket.send_periodically_message (microseconds : Nat) (frame : CANFrame) :
    BCMMessageHeader :=
  { opcode := TX_SETUP
    flags := BCM_SETTIMER ||| BCM_STARTTIMER
    count := 0
    ival1 := { tv_sec := 0, tv_usec := 0 }
    ival2 := { tv_sec := 0, tv_usec := microseconds % 2 ^ 64 }
    can_id := frame.id
    nframes := 1
    frames := frame }

end SocketCAN

namespace SocketCAN

/- Helper lemmas about the bit manipulation in `CANFrame.new`. -/

/-- Masking with `2 ^ k - 1` removes or-ed in flag bits that live above bit
`k` and returns a value below `2 ^ k` unchanged. -/
theorem lor_and_pow_sub_one {a f k : Nat} (ha : a < 2 ^ k) (hf : f % 2 ^ k = 0) :
    (a ||| f) &&& (2 ^ k - 1) = a := by
  apply Nat.eq_of_testBit_eq
  intro i
  rw [Nat.testBit_and, Nat.testBit_two_pow_sub_one, Nat.testBit_or]
  by_cases h : i < k
  · have hfi : f.testBit i = false := by
      have h0 : (f % 2 ^ k).testBit i = false := by
        rw [hf]; exact Nat.zero_testBit i
      rw [Nat.testBit_mod_two_pow] at h0
      simpa [h] using h0
    simp [h, hfi]
  · have hai : a.testBit i = false :=
      Nat.testBit_lt_two_pow
        (Nat.lt_of_lt_of_le ha (Nat.pow_le_pow_right (by decide) (Nat.le_of_not_lt h)))
    simp [h, hai]

/-- A bitwise test against a single power of two reads exactly that bit. -/
theorem and_two_pow_eq_zero_iff (x k : Nat) :
    x &&& 2 ^ k = 0 ↔ x.testBit k = false := by
  rw [Nat.and_two_pow]
  cases h : x.testBit k
  · simp
  · simp [Nat.pos_iff_ne_zero.mp (Nat.two_pow_pos k)]

/-- The raw identifier built by `CANFrame.new` is the plain identifier
or-ed with one flag word per set condition. -/
theorem new_raw_id (id : Nat) (rtr err : Bool) :
    (if err then
        (if rtr then (if id > SFF_MASK then id ||| EFF_FLAG else id) ||| RTR_FLAG
         else (if id > SFF_MASK then id ||| EFF_FLAG else id)) ||| ERR_FLAG
      else
        (if rtr then (if id > SFF_MASK then id ||| EFF_FLAG else id) ||| RTR_FLAG
         else (if id > SFF_MASK then id ||| EFF_FLAG else id)))
    = id ||| ((if id > SFF_MASK then EFF_FLAG else 0) |||
        ((if rtr then RTR_FLAG else 0) ||| (if err then ERR_FLAG else 0))) := by
  by_cases h : id > SFF_MASK <;> cases rtr <;> cases err <;>
    simp [h, Nat.or_assoc]

/-- The `id` accessor recovers the plain identifier from a raw field of
the shape `idv ||| F` when the flag word `F` is clean below bit 29 and,
in the standard-frame case, clean below bit 11. -/
theorem frame_id_or_flags {f : CANFrame} {idv F : Nat}
    (hraw : f.raw_id = idv ||| F)
    (h29 : idv < 2 ^ 29)
    (hF29 : F % 2 ^ 29 = 0)
    (hstd : F.testBit 31 = false → idv < 2 ^ 11 ∧ F % 2 ^ 11 = 0) :
    f.id = idv := by
  have hidbit : idv.testBit 31 = false :=
    Nat.testBit_lt_two_pow (Nat.lt_of_lt_of_le h29 (by norm_num))
  have horbit : (idv ||| F).testBit 31 = F.testBit 31 := by
    rw [Nat.testBit_or, hidbit, Bool.false_or]
  have h31 : EFF_FLAG = 2 ^ 31 := by decide
  unfold CANFrame.id CANFrame.is_extended
  rw [hraw]
  cases hb : F.testBit 31 with
  | false =>
    have hz : (idv ||| F) &&& EFF_FLAG = 0 := by
      rw [h31]
      exact (and_two_pow_eq_zero_iff _ 31).mpr (horbit.trans hb)
    rw [hz]
    have hmask : SFF_MASK = 2 ^ 11 - 1 := by decide
    simp only [bne_self_eq_false, Bool.false_eq_true, if_false, hmask]
    exact lor_and_pow_sub_one (hstd hb).1 (hstd hb).2
  | true =>
    have hnz : ((idv ||| F) &&& EFF_FLAG != 0) = true := by
      rw [h31, Nat.and_two_pow, horbit.trans hb]
      decide
    rw [hnz]
    have hmask : EFF_MASK = 2 ^ 29 - 1 := by decide
    simp only [if_true, hmask]
    exact lor_and_pow_sub_one h29 hF29

/-- Claim C1: for every identifier at most `EFF_MASK`, payload of length
at most 8 and rtr/err flag combination, `CANFrame::new` succeeds, the
`id` accessor returns the original identifier (masking for the
standard-vs-extended range leaves it unchanged in this range), and the
`data` accessor returns exactly the original payload. -/
theorem c1_frame_roundtrip (id : Nat) (data : List Nat) (rtr err : Bool)
    (hid : id ≤ EFF_MASK) (hdata : data.length ≤ 8) :
    ∃ f, CANFrame.new id data rtr err = .ok f ∧
      f.id = id ∧ f.data_slice = data := by
  have hid29 : id < 2 ^ 29 := by
    have h : EFF_MASK = 2 ^ 29 - 1 := by decide
    omega
  unfold CANFrame.new
  rw [if_neg (Nat.not_lt.mpr hdata), if_neg (Nat.not_lt.mpr hid)]
  refine ⟨_, rfl, ?_, ?_⟩
  · refine frame_id_or_flags (new_raw_id id rtr err) hid29 ?_ ?_
    · by_cases h : id > SFF_MASK <;> cases rtr <;> cases err <;> simp [h] <;> decide
    · intro hb
      by_cases h : id > SFF_MASK
      · exfalso
        rw [show ((if id > SFF_MASK then EFF_FLAG else 0) |||
              ((if rtr then RTR_FLAG else 0) ||| (if err then ERR_FLAG else 0)))
            = EFF_FLAG |||
              ((if rtr then RTR_FLAG else 0) ||| (if err then ERR_FLAG else 0))
          from by rw [if_pos h]] at hb
        cases rtr <;> cases err <;> exact absurd hb (by decide)
      · constructor
        · have hmask : SFF_MASK = 2 ^ 11 - 1 := by decide
          rw [hmask] at h
          omega
        · rw [if_neg h]
          cases rtr <;> cases err <;> decide
  · show (data ++ List.replicate (8 - data.length) 0).take data.length = data
    exact List.take_left data (List.replicate (8 - data.length) 0)

/-- Witness for C1 at the extended identifier 0x1234 with payload
[1, 2, 3] and the rtr flag set. -/
theorem c1_frame_roundtrip_witness :
    ∃ f, CANFrame.new 0x1234 [1, 2, 3] true false = .ok f ∧
      f.id = 0x1234 ∧ f.data_slice = [1, 2, 3] :=
  c1_frame_roundtrip 0x1234 [1, 2, 3] true false (by decide) (by decide)

/-- Claim C7: for every identifier and every payload of length greater
than 8, frame construction fails with `TooMuchData`. -/
theorem c7_too_much_data (id : Nat) (data : List Nat) (rtr err : Bool)
    (h : data.length > 8) :
    CANFrame.new id data rtr err = .error .TooMuchData := by
  unfold CANFrame.new
  rw [if_pos h]

/-- Witness for C7 at identifier 0x2000_0000 and a 9-byte payload. -/
theorem c7_too_much_data_witness :
    CANFrame.new 0x20000000 (List.replicate 9 0) false false
      = .error .TooMuchData :=
  c7_too_much_data 0x20000000 (List.replicate 9 0) false false (by decide)

/-- Counterexample to claim C8 as stated: an identifier above `EFF_MASK`
together with a 9-byte payload fails with `TooMuchData`, not `IDTooLarge`,
because the payload length is checked first. -/
theorem c8_counterexample :
    CANFrame.new 0x20000000 (List.replicate 9 0) false false
        = .error .TooMuchData ∧
      CANFrame.new 0x20000000 (List.replicate 9 0) false false
        ≠ .error .IDTooLarge := by
  constructor
  · rfl
  · decide

/-- Claim C8 (amended): for every identifier greater than `EFF_MASK` and
every payload of length at most 8, frame construction fails with
`IDTooLarge`. -/
theorem c8_id_too_large (id : Nat) (data : List Nat) (rtr err : Bool)
    (hid : id > EFF_MASK) (hdata : data.length ≤ 8) :
    CANFrame.new id data rtr err = .error .IDTooLarge := by
  unfold CANFrame.new
  rw [if_neg (by omega), if_pos hid]

/-- Witness for C8 at identifier 0x2000_0000 and an empty payload. -/
theorem c8_id_too_large_witness :
    CANFrame.new 0x20000000 [] true true = .error .IDTooLarge :=
  c8_id_too_large 0x20000000 [] true true (by decide) (by decide)

/-- Claim C9: for every frame whose error flag is unset, error decoding
fails with `NotAnError`, regardless of identifier and payload. -/
theorem c9_not_an_error (f : CANFrame) (h : f.is_error = false) :
    CANError.from_frame f = .error .NotAnError := by
  unfold CANError.from_frame
  rw [h]
  rfl

/-- Witness for C9 on a data frame with identifier 0x123. -/
theorem c9_not_an_error_witness :
    CANError.from_frame ⟨0x123, 2, 0, 0, 0, [1, 2, 0, 0, 0, 0, 0, 0]⟩
      = .error .NotAnError :=
  c9_not_an_error ⟨0x123, 2, 0, 0, 0, [1, 2, 0, 0, 0, 0, 0, 0]⟩ rfl

/-- Claim C6: the periodic-transmission setup message has operation code
`TX_SETUP` (1), flags `BCM_SETTIMER ||| BCM_STARTTIMER`, count 0, first
interval pair (0, 0), second interval pair (0, microseconds), the target
identifier taken from the frame, frame count 1, and the template frame
embedded once. -/
theorem c6_send_periodically_layout (microseconds : Nat) (frame : CANFrame)
    (h : microseconds < 2 ^ 64) :
    (BCMSocket.send_periodically_message microseconds frame).opcode = 1 ∧
    (BCMSocket.send_periodically_message microseconds frame).flags
      = BCM_SETTIMER ||| BCM_STARTTIMER ∧
    (BCMSocket.send_periodically_message microseconds frame).count = 0 ∧
    (BCMSocket.send_periodically_message microseconds frame).ival1 = ⟨0, 0⟩ ∧
    (BCMSocket.send_periodically_message microseconds frame).ival2
      = ⟨0, microseconds⟩ ∧
    (BCMSocket.send_periodically_message microseconds frame).can_id = frame.id ∧
    (BCMSocket.send_periodically_message microseconds frame).nframes = 1 ∧
    (BCMSocket.send_periodically_message microseconds frame).frames = frame := by
  unfold BCMSocket.send_periodically_message
  refine ⟨rfl, rfl, rfl, rfl, ?_, rfl, rfl, rfl⟩
  exact congrArg (BCMInterval.mk 0) (Nat.mod_eq_of_lt h)

/-- Witness for C6 at the 50000 microsecond sync interval with the sync
frame used by canopen.rs. -/
theorem c6_send_periodically_layout_witness :
    (BCMSocket.send_periodically_message 50000
        ⟨0x80, 0, 0, 0, 0, List.replicate 8 0⟩).ival2 = ⟨0, 50000⟩ ∧
    (BCMSocket.send_periodically_message 50000
        ⟨0x80, 0, 0, 0, 0, List.replicate 8 0⟩).can_id = 0x80 :=
  ⟨(c6_send_periodically_layout 50000 ⟨0x80, 0, 0, 0, 0, List.replicate 8 0⟩
      (by decide)).2.2.2.2.1,
   ((c6_send_periodically_layout 50000 ⟨0x80, 0, 0, 0, 0, List.replicate 8 0⟩
      (by decide)).2.2.2.2.2.1).trans rfl⟩

/-- Claim C3 (code bug): classification is not total.  On a frame whose
masked identifier is 0x700 but whose payload is empty, the 0x700 arm
evaluates `frame.data()[0]` on an empty slice and panics (modelled by
`none`) instead of returning a message or a decode error. -/
theorem c3_classification_panics :
    CANOpenNodeMessage.tryFrom ⟨0x701, 0, 0, 0, 0, List.replicate 8 0⟩ = none := by
  rfl

/-- Counterexample to claim C5 as stated: a frame with masked identifier
0x700 and an empty payload does not classify to any
`NetworkManagementState`; the code panics on `frame.data()[0]` (modelled
by `none`). -/
theorem c5_counterexample :
    CANOpenNodeMessage.tryFrom ⟨0x700, 0, 0, 0, 0, List.replicate 8 0⟩ = none := by
  rfl

/-- Claim C5 (amended): for every frame whose masked identifier
(`id() AND 0xF80`) is 0x700 and whose payload slice has at least byte 0,
classification returns `NMTReceived` decoded from payload byte 0 as 0x04 →
Stopped, 0x05 → Operational, 0x7F → PreOperational, everything else →
Initializing; on an empty payload the code panics instead. -/
theorem c5_nmt_state_decoding (f : CANFrame) (b : Nat)
    (hid : f.id &&& 0xf80 = 0x700) (hb : f.data_slice[0]? = some b) :
    CANOpenNodeMessage.tryFrom f = some (.ok (.NMTReceived
      (if b = 0x04 then .Stopped
       else if b = 0x05 then .Operational
       else if b = 0x7f then .PreOperational
       else .Initializing))) := by
  unfold CANOpenNodeMessage.tryFrom
  rw [hid, hb]
  simp [NMTState.fromRaw]

/-- Witness for C5 on a heartbeat frame with identifier 0x705 and payload
byte 0x05 (Operational). -/
theorem c5_nmt_state_decoding_witness :
    CANOpenNodeMessage.tryFrom ⟨0x705, 1, 0, 0, 0, [0x05, 0, 0, 0, 0, 0, 0, 0]⟩
      = some (.ok (.NMTReceived .Operational)) :=
  c5_nmt_state_decoding ⟨0x705, 1, 0, 0, 0, [0x05, 0, 0, 0, 0, 0, 0, 0]⟩ 0x05
    rfl rfl

set_option maxRecDepth 8192 in
/-- Claim C4: each error class with sub-structure reads its designated
payload byte (arbitration loss byte 0, controller problem byte 1,
violation type byte 2 and violation location byte 3) and maps it through
that class's fixed lookup table; every byte outside a table is rejected
with that table's distinct failure and no default is substituted; and the
two concrete cases: error code 0x02 with byte 0 = 7 decodes to
`LostArbitration 7`, error code 0x04 with byte 1 = 0x99 fails with
`InvalidControllerProblem`. -/
theorem c4_error_decoder_tables :
    (∀ f b, f.is_error = true → f.err = 0x02 → get_data f 0 = .ok b →
        CANError.from_frame f = .ok (.LostArbitration b)) ∧
    (∀ f b, f.is_error = true → f.err = 0x04 → get_data f 1 = .ok b →
        CANError.from_frame f
          = (ControllerProblem.try_from b).map CANError.ControllerProblem) ∧
    (∀ f b2 b3, f.is_error = true → f.err = 0x08 →
        get_data f 2 = .ok b2 → get_data f 3 = .ok b3 →
        CANError.from_frame f
          = (ViolationType.try_from b2).bind fun vtype =>
              (Location.try_from b3).map fun location =>
                CANError.ProtocolViolation vtype location) ∧
    (∀ b, b < 256 → b ∉ ([0x00, 0x01, 0x02, 0x04, 0x08, 0x10, 0x20, 0x40] : List Nat) →
        ControllerProblem.try_from b = .error .InvalidControllerProblem) ∧
    (∀ b, b < 256 →
        b ∉ ([0x00, 0x01, 0x02, 0x04, 0x08, 0x10, 0x20, 0x40, 0x80] : List Nat) →
        ViolationType.try_from b = .error .InvlaidViolationType) ∧
    (∀ b, b < 256 →
        b ∉ ([0x00, 0x03, 0x02, 0x06, 0x04, 0x05, 0x07, 0x0F, 0x0E, 0x0C, 0x0D,
              0x09, 0x0B, 0x0A, 0x08, 0x18, 0x19, 0x1B, 0x1A, 0x12] : List Nat) →
        Location.try_from b = .error .InvalidLocation) ∧
    (∀ b, b < 256 →
        b ∉ ([0x00, 0x04, 0x05, 0x06, 0x07, 0x40, 0x50, 0x60, 0x70, 0x80] : List Nat) →
        TransceiverError.try_from b = .error .InvalidTransceiverError) ∧
    CANError.from_frame ⟨0x20000002, 1, 0, 0, 0, [7, 0, 0, 0, 0, 0, 0, 0]⟩
      = .ok (.LostArbitration 7) ∧
    CANError.from_frame ⟨0x20000004, 2, 0, 0, 0, [0, 0x99, 0, 0, 0, 0, 0, 0]⟩
      = .error .InvalidControllerProblem := by
  refine ⟨?_, ?_, ?_, ?_, ?_, ?_, ?_, ?_, ?_⟩
  · intro f b h1 h2 h3
    unfold CANError.from_frame
    rw [h1]
    simp [h2, h3, Except.map]
  · intro f b h1 h2 h3
    unfold CANError.from_frame
    rw [h1]
    simp [h2, h3, Except.map, Except.bind]
  · intro f b2 b3 h1 h2 h3 h4
    unfold CANError.from_frame
    rw [h1]
    simp [h2, h3, h4, Except.map, Except.bind]
  · decide
  · decide
  · decide
  · decide
  · rfl
  · rfl

/-- Inversion for the classifier: a `PDOReceived` result always carries
the frame's full 8-byte buffer and its reported length. -/
theorem tryFrom_pdo_inv (f : CANFrame) (pdo : PDO) (bytes : List Nat) (n : Nat)
    (h : CANOpenNodeMessage.tryFrom f = some (.ok (.PDOReceived pdo bytes n))) :
    bytes = f.raw_data ∧ n = f.len := by
  unfold CANOpenNodeMessage.tryFrom at h
  by_cases e1 : f.id &&& 0xf80 = 0x80
  · rw [if_pos e1] at h
    simp at h
  · rw [if_neg e1] at h
    by_cases e2 : f.id &&& 0xf80 = 0x180
    · rw [if_pos e2] at h
      simp only [Option.some_inj, Except.ok.injEq,
        CANOpenNodeMessage.PDOReceived.injEq] at h
      exact ⟨h.2.1.symm, h.2.2.symm⟩
    · rw [if_neg e2] at h
      by_cases e3 : f.id &&& 0xf80 = 0x280
      · rw [if_pos e3] at h
        simp only [Option.some_inj, Except.ok.injEq,
          CANOpenNodeMessage.PDOReceived.injEq] at h
        exact ⟨h.2.1.symm, h.2.2.symm⟩
      · rw [if_neg e3] at h
        by_cases e4 : f.id &&& 0xf80 = 0x380
        · rw [if_pos e4] at h
          simp only [Option.some_inj, Except.ok.injEq,
            CANOpenNodeMessage.PDOReceived.injEq] at h
          exact ⟨h.2.1.symm, h.2.2.symm⟩
        · rw [if_neg e4] at h
          by_cases e5 : f.id &&& 0xf80 = 0x480
          · rw [if_pos e5] at h
            simp only [Option.some_inj, Except.ok.injEq,
              CANOpenNodeMessage.PDOReceived.injEq] at h
            exact ⟨h.2.1.symm, h.2.2.symm⟩
          · rw [if_neg e5] at h
            by_cases e6 : f.id &&& 0xf80 = 0x700
            · rw [if_pos e6] at h
              cases hb : f.data_slice[0]? <;> rw [hb] at h <;> simp at h
            · rw [if_neg e6] at h
              simp at h

/-- Claim C10: every frame built by a successful `CANFrame::new` call has
`len` equal to the payload length and a `raw_data` buffer of 8 bytes whose
prefix is the payload and whose tail is all zero; consequently a
`PDOReceived` message classified from such a frame carries the zero-padded
buffer with zeroed bytes beyond the reported length. -/
theorem c10_zero_padding (id : Nat) (data : List Nat) (rtr err : Bool)
    (f : CANFrame) (h : CANFrame.new id data rtr err = .ok f) :
    f.len = data.length ∧
    f.raw_data.length = 8 ∧
    f.raw_data.take data.length = data ∧
    f.raw_data.drop data.length = List.replicate (8 - data.length) 0 ∧
    (∀ pdo bytes n, CANOpenNodeMessage.tryFrom f
        = some (.ok (.PDOReceived pdo bytes n)) →
      n = data.length ∧ bytes.drop n = List.replicate (8 - data.length) 0) := by
  unfold CANFrame.new at h
  by_cases h1 : data.length > 8
  · rw [if_pos h1] at h
    simp at h
  · rw [if_neg h1] at h
    by_cases h2 : id > EFF_MASK
    · rw [if_pos h2] at h
      simp at h
    · rw [if_neg h2] at h
      injection h with h
      subst h
      have hdrop : (data ++ List.replicate (8 - data.length) 0).drop data.length
          = List.replicate (8 - data.length) 0 :=
        List.drop_left data (List.replicate (8 - data.length) 0)
      refine ⟨rfl, ?_, ?_, ?_, ?_⟩
      · show (data ++ List.replicate (8 - data.length) 0).length = 8
        rw [List.length_append, List.length_replicate]
        omega
      · exact List.take_left data (List.replicate (8 - data.length) 0)
      · exact hdrop
      · intro pdo bytes n htf
        obtain ⟨hbytes, hn⟩ := tryFrom_pdo_inv _ pdo bytes n htf
        subst hbytes
        subst hn
        exact ⟨rfl, hdrop⟩

/-- Witness for C10 on identifier 0x123 with payload [1, 2, 3]. -/
theorem c10_zero_padding_witness :
    (⟨0x123, 3, 0, 0, 0, [1, 2, 3, 0, 0, 0, 0, 0]⟩ : CANFrame).raw_data.drop 3
      = List.replicate 5 0 :=
  (c10_zero_padding 0x123 [1, 2, 3] false false
    ⟨0x123, 3, 0, 0, 0, [1, 2, 3, 0, 0, 0, 0, 0]⟩ rfl).2.2.2.1

/-- A frame whose raw identifier has no extended-format bit and fits the
standard mask is reported back unchanged by the `id` accessor. -/
theorem frame_id_std {f : CANFrame} (h1 : f.raw_id &&& EFF_FLAG = 0)
    (h2 : f.raw_id &&& SFF_MASK = f.raw_id) : f.id = f.raw_id := by
  unfold CANFrame.id CANFrame.is_extended
  rw [h1]
  simp [h2]

/-- The classifier rejects every masked identifier outside its six
recognized function codes with `InvalidID`. -/
theorem tryFrom_invalid (f : CANFrame)
    (hne : f.id &&& 0xf80 ∉ ([0x80, 0x180, 0x280, 0x380, 0x480, 0x700] : List Nat)) :
    CANOpenNodeMessage.tryFrom f
      = some (.error (.InvalidID (f.id &&& 0xf80))) := by
  simp only [List.mem_cons, List.not_mem_nil, or_false, not_or] at hne
  obtain ⟨n1, n2, n3, n4, n5, n6⟩ := hne
  unfold CANOpenNodeMessage.tryFrom
  rw [if_neg n1, if_neg n2, if_neg n3, if_neg n4, if_neg n5, if_neg n6]

/-- The classifier decodes a frame with masked identifier 0x700 and a
nonempty payload through `NMTState`. -/
theorem tryFrom_nmt (f : CANFrame) (b : Nat)
    (hid : f.id &&& 0xf80 = 0x700) (hb : f.data_slice[0]? = some b) :
    CANOpenNodeMessage.tryFrom f
      = some (.ok (.NMTReceived (NMTState.fromRaw b))) := by
  unfold CANOpenNodeMessage.tryFrom
  rw [hid, hb]
  simp

set_option maxRecDepth 8192 in
/-- Identifier arithmetic for serialized PDO commands: the to-device base
or-ed with a 7-bit node id stays a standard identifier, carries no flag
bits, and masks back to the base. -/
theorem c2_id_facts : ∀ (pdo : PDO) (node : Nat), node < 128 →
    (pdo.get_to_device_id ||| node) ≤ 0x7ff ∧
    (pdo.get_to_device_id ||| node) &&& EFF_FLAG = 0 ∧
    (pdo.get_to_device_id ||| node) &&& SFF_MASK = pdo.get_to_device_id ||| node ∧
    (pdo.get_to_device_id ||| node) &&& 0xf80 = pdo.get_to_device_id := by
  intro pdo
  cases pdo <;> decide

set_option maxRecDepth 8192 in
/-- Identifier arithmetic for serialized NMT commands. -/
theorem c2_nmt_id_facts : ∀ node, node < 128 →
    (0x700 ||| node) ≤ 0x7ff ∧
    (0x700 ||| node) &&& EFF_FLAG = 0 ∧
    (0x700 ||| node) &&& SFF_MASK = 0x700 ||| node ∧
    (0x700 ||| node) &&& 0xf80 = 0x700 := by
  decide

/-- Serializing a `SendPDO` command yields the frame with the to-device
identifier and the truncated, zero-padded payload. -/
theorem toFrame_pdo (node : Nat) (pdo : PDO) (data : List Nat) (size : Nat)
    (hnode : node < 128) (hdata : data.length = 8) (hsize : size ≤ 8) :
    CANOpenNodeCommand.toFrame (.SendPDO node pdo data size)
      = some { raw_id := pdo.get_to_device_id ||| node
               data_len := size
               pad := 0
               res0 := 0
               res1 := 0
               data := data.take size ++ List.replicate (8 - size) 0 } := by
  obtain ⟨hle, heff, hsff, hf80⟩ := c2_id_facts pdo node hnode
  simp only [CANOpenNodeCommand.toFrame, CANFrame.new]
  rw [if_pos (by omega : size ≤ data.length)]
  rw [if_neg (by rw [List.length_take]; omega)]
  rw [if_neg (Nat.not_lt.mpr (le_trans hle (by decide)))]
  rw [if_neg (Nat.not_lt.mpr (le_trans hle (by decide)))]
  simp only [List.length_take, hdata, Nat.min_eq_left hsize, Except.toOption]
  rfl

/-- Serializing a `SendNMT` command yields the frame with identifier
`0x700 ||| node` and the single command byte, zero-padded. -/
theorem toFrame_nmt (node : Nat) (cmd : NMTCommand) (hnode : node < 128) :
    CANOpenNodeCommand.toFrame (.SendNMT node cmd)
      = some { raw_id := 0x700 ||| node
               data_len := 1
               pad := 0
               res0 := 0
               res1 := 0
               data := [cmd.toByte, 0, 0, 0, 0, 0, 0, 0] } := by
  obtain ⟨hle, heff, hsff, hf80⟩ := c2_nmt_id_facts node hnode
  simp only [CANOpenNodeCommand.toFrame, CANFrame.new]
  rw [if_neg (by simp : ¬([cmd.toByte].length > 8))]
  rw [if_neg (Nat.not_lt.mpr (le_trans hle (by decide)))]
  rw [if_neg (Nat.not_lt.mpr (le_trans hle (by decide)))]
  rfl

/-- Counterexample to claim C2 as stated: classifying the serialization
of a ProcessData command does not yield ProcessData at all — it fails
with `InvalidID 0x200` — and classifying a serialized GoToOperational
command yields `NMTReceived Initializing`, not the command. -/
theorem c2_counterexample :
    (CANOpenNodeCommand.toFrame (.SendPDO 1 .PDO1 [1, 2, 3, 4, 5, 6, 7, 8] 8)).bind
        CANOpenNodeMessage.tryFrom
      = some (.error (.InvalidID 0x200)) ∧
    (CANOpenNodeCommand.toFrame (.SendPDO 1 .PDO1 [1, 2, 3, 4, 5, 6, 7, 8] 8)).bind
        CANOpenNodeMessage.tryFrom
      ≠ some (.ok (.PDOReceived .PDO1 [1, 2, 3, 4, 5, 6, 7, 8] 8)) ∧
    (CANOpenNodeCommand.toFrame (.SendNMT 1 .GoToOperational)).bind
        CANOpenNodeMessage.tryFrom
      = some (.ok (.NMTReceived .Initializing)) := by
  refine ⟨rfl, ?_, rfl⟩
  decide

/-- Claim C2 (amended): classification is not the inverse of
serialization.  For every node id 0–0x7F, channel, 8-byte buffer and
length at most 8, classifying the serialized ProcessData frame fails with
`InvalidID` carrying the channel's to-device base identifier
(0x200/0x300/0x400/0x500), because serialization uses to-device
identifiers while classification recognizes only the from-device
identifiers 0x180/0x280/0x380/0x480; and classifying a serialized
network-management command yields `NMTReceived Initializing` for every
command, never recovering the command. -/
theorem c2_classify_of_serialize (node : Nat) (hnode : node ≤ 0x7f) :
    (∀ (pdo : PDO) (data : List Nat) (size : Nat), data.length = 8 → size ≤ 8 →
        (CANOpenNodeCommand.toFrame (.SendPDO node pdo data size)).bind
            CANOpenNodeMessage.tryFrom
          = some (.error (.InvalidID pdo.get_to_device_id))) ∧
    (∀ cmd : NMTCommand,
        (CANOpenNodeCommand.toFrame (.SendNMT node cmd)).bind
            CANOpenNodeMessage.tryFrom
          = some (.ok (.NMTReceived .Initializing))) := by
  constructor
  · intro pdo data size hdata hsize
    obtain ⟨hle, heff, hsff, hf80⟩ := c2_id_facts pdo node (by omega)
    rw [toFrame_pdo node pdo data size (by omega) hdata hsize]
    rw [Option.some_bind]
    have hidacc : CANFrame.id
        { raw_id := pdo.get_to_device_id ||| node
          data_len := size
          pad := 0
          res0 := 0
          res1 := 0
          data := data.take size ++ List.replicate (8 - size) 0 }
        = pdo.get_to_device_id ||| node := frame_id_std heff hsff
    rw [tryFrom_invalid
        { raw_id := pdo.get_to_device_id ||| node
          data_len := size
          pad := 0
          res0 := 0
          res1 := 0
          data := data.take size ++ List.replicate (8 - size) 0 }
        (by rw [hidacc, hf80]; cases pdo <;> decide)]
    rw [hidacc, hf80]
  · intro cmd
    obtain ⟨hle, heff, hsff, hf80⟩ := c2_nmt_id_facts node (by omega)
    rw [toFrame_nmt node cmd (by omega)]
    rw [Option.some_bind]
    have hidacc : CANFrame.id
        { raw_id := 0x700 ||| node
          data_len := 1
          pad := 0
          res0 := 0
          res1 := 0
          data := [cmd.toByte, 0, 0, 0, 0, 0, 0, 0] }
        = 0x700 ||| node := frame_id_std heff hsff
    rw [tryFrom_nmt
        { raw_id := 0x700 ||| node
          data_len := 1
          pad := 0
          res0 := 0
          res1 := 0
          data := [cmd.toByte, 0, 0, 0, 0, 0, 0, 0] }
        cmd.toByte (by rw [hidacc, hf80]) rfl]
    cases cmd <;> rfl

/-- Witness for C2 (amended) at node 2, channel PDO2, a concrete buffer
and length 4, and at the GoToStopped command. -/
theorem c2_classify_of_serialize_witness :
    (CANOpenNodeCommand.toFrame (.SendPDO 2 .PDO2 [9, 8, 7, 6, 5, 4, 3, 2] 4)).bind
        CANOpenNodeMessage.tryFrom
      = some (.error (.InvalidID 0x300)) ∧
    (CANOpenNodeCommand.toFrame (.SendNMT 2 .GoToStopped)).bind
        CANOpenNodeMessage.tryFrom
      = some (.ok (.NMTReceived .Initializing)) :=
  ⟨(c2_classify_of_serialize 2 (by decide)).1 .PDO2 [9, 8, 7, 6, 5, 4, 3, 2] 4
      rfl (by decide),
   (c2_classify_of_serialize 2 (by decide)).2 .GoToStopped⟩

/-- Witness for C4: the lost-arbitration clause applied to an error frame
carrying slot number 5. -/
theorem c4_error_decoder_tables_witness :
    CANError.from_frame ⟨0x20000002, 1, 0, 0, 0, [5, 0, 0, 0, 0, 0, 0, 0]⟩
      = .ok (.LostArbitration 5) :=
  c4_error_decoder_tables.1 ⟨0x20000002, 1, 0, 0, 0, [5, 0, 0, 0, 0, 0, 0, 0]⟩ 5
    rfl rfl rfl

end SocketCAN
